import Mathlib

/-!
Verification development for the snapshot decision and read-endpoint logic of
the majeggstics-dashboard repository.

Modelling conventions (shallow embedding of the TypeScript source):
- JavaScript numbers are modelled as exact rationals (`ℚ`); timestamps are
  rational milliseconds since the epoch, the value of `new Date(s).getTime()`.
- JSON/SQL `null` and absent optional fields are modelled with `Option`.
- The JavaScript `Infinity` produced for `hoursSinceLastSave` when no save has
  ever happened is modelled as `Option ℚ` with `none` standing for `+∞`.
- Fallible operations return `Except`.
-/

/-- Player record delivered by the bot API
(`supabase/functions/_shared/types.ts`, interface `BotApiPlayer`).
`updatedAt` is kept as parsed rational milliseconds; `isGuest` is `Bool`
because the engine only reads its JS truthiness (`undefined` behaves as
`false`); `active` keeps its optionality, read via `getD true` downstream. -/
structure BotApiPlayer where
  ID : String
  IGN : String
  displayName : Option String
  discordName : String
  EB : ℚ
  SE : ℚ
  PE : ℚ
  TE : Option ℚ
  numPrestiges : Option ℕ
  farmerRole : Option String
  grade : String
  isGuest : Bool
  active : Option Bool
  updatedAt : ℚ
deriving Repr, DecidableEq

/-- Entry of the `missingPlayers` list built by the decision engine
(`snapshot-logic.ts` lines 82-103). -/
structure MissingPlayer where
  discord_id : String
  ign : String
  updatedAt : ℚ
  timeDifferenceHours : ℚ
deriving Repr, DecidableEq

/-- `PendingSyncData` from `_shared/types.ts`: the parcel stored when a
partial sync is parked for retry.  Its `missingPlayers` entries drop the
`timeDifferenceHours` annotation (see `createPendingSyncData`). -/
structure PendingMissingPlayer where
  discord_id : String
  ign : String
  updatedAt : ℚ
deriving Repr, DecidableEq

/-- Pending sync parcel (`_shared/types.ts`, interface `PendingSyncData`). -/
structure PendingSyncData where
  players : List BotApiPlayer
  timestamp : ℚ
  syncPercentage : ℚ
  attemptCount : ℕ
  missingPlayers : List PendingMissingPlayer
deriving Repr, DecidableEq

/-- Decision object returned by `shouldSaveSnapshot`
(`_shared/types.ts`, interface `SnapshotDecision`).
`hoursSinceLastSave : Option ℚ` models the JS number-or-`Infinity` value with
`none` for `Infinity`; `excludedPlayerCount` is an integer because the source
computes it by subtraction of JS numbers. -/
structure SnapshotDecision where
  shouldSave : Bool
  syncPercentage : ℚ
  playersInSyncWindow : ℕ
  totalNonExcludedPlayers : ℕ
  totalPlayersReceived : ℕ
  excludedPlayerCount : ℤ
  lowestUpdatedAt : Option ℚ
  timeSinceLowestUpdateHours : ℚ
  hoursSinceLastSave : Option ℚ
  reason : String
  isPendingSync : Bool
  pendingAttemptCount : ℕ
  missingPlayers : List MissingPlayer
deriving Repr, DecidableEq

/-- `pending_sync_metadata` JSONB column content, as written by the cron
controller (`refresh-leaderboard-cron`, step 7). -/
structure PendingSyncMetadata where
  syncPercentage : ℚ
  missingPlayers : List MissingPlayer
deriving Repr, DecidableEq

/-- Singleton controller-state row (`_shared/types.ts`, interface
`SnapshotSaveMetadata`; table `snapshot_save_metadata`).
Timestamp columns are nullable, hence `Option ℚ`. -/
structure SnapshotSaveMetadata where
  last_saved_at : Option ℚ
  last_decision_at : Option ℚ
  last_decision_result : Option SnapshotDecision
  last_email_sent_at : Option ℚ
  last_email_type : Option String
  pending_sync_data : Option PendingSyncData
  pending_sync_first_attempt : Option ℚ
  pending_sync_attempt_count : ℕ
  pending_sync_metadata : Option PendingSyncMetadata
deriving Repr, DecidableEq

/-- `SYNC_WINDOW_HOURS = 1 + 5/60` (snapshot-logic.ts line 17). -/
def SYNC_WINDOW_HOURS : ℚ := 1 + 5 / 60

/-- `COOLDOWN_HOURS = 1.5` (snapshot-logic.ts line 18). -/
def COOLDOWN_HOURS : ℚ := 3 / 2

/-- `PARTIAL_SYNC_THRESHOLD = 99.0` (snapshot-logic.ts line 19). -/
def PARTIAL_SYNC_THRESHOLD : ℚ := 99

/-- `PARTIAL_SYNC_RETRY_ATTEMPTS = 2` (snapshot-logic.ts line 20). -/
def PARTIAL_SYNC_RETRY_ATTEMPTS : ℕ := 2

/-- `ONE_HOUR_MS = 3600000` (snapshot-logic.ts line 80). -/
def ONE_HOUR_MS : ℚ := 3600000

/-- Guest/exclusion filter (snapshot-logic.ts lines 44-46). -/
def filteredPlayersOf (players : List BotApiPlayer) (excludedIds : List String) :
    List BotApiPlayer :=
  players.filter (fun p => !p.isGuest && !(excludedIds.contains p.ID))

/-- STEP 1: oldest `updatedAt` among the filtered players
(snapshot-logic.ts lines 72-75).  The `getD 0` default is never consulted:
the engine early-returns before this point when the list is empty. -/
def lowestUpdatedAtOf (filtered : List BotApiPlayer) : ℚ :=
  ((filtered.map (fun p => p.updatedAt)).min?).getD 0

/-- The sync-window membership test `timeDifference < ONE_HOUR_MS`
(snapshot-logic.ts line 93). -/
def inSyncWindow (low : ℚ) (p : BotApiPlayer) : Bool :=
  decide (p.updatedAt - low < ONE_HOUR_MS)

/-- STEP 2: count of filtered players inside the one-hour window
(snapshot-logic.ts lines 89-104). -/
def playersInSyncWindowOf (filtered : List BotApiPlayer) : ℕ :=
  (filtered.filter (inSyncWindow (lowestUpdatedAtOf filtered))).length

/-- STEP 2: players outside the window, annotated with their lag
(snapshot-logic.ts lines 95-103). -/
def missingPlayersOf (filtered : List BotApiPlayer) : List MissingPlayer :=
  (filtered.filter (fun p => !(inSyncWindow (lowestUpdatedAtOf filtered) p))).map
    (fun p =>
      { discord_id := p.ID, ign := p.IGN, updatedAt := p.updatedAt,
        timeDifferenceHours := (p.updatedAt - lowestUpdatedAtOf filtered) / 3600000 })

/-- `syncPercentage = (playersInSyncWindow / totalNonExcludedPlayers) * 100`
(snapshot-logic.ts line 107). -/
def syncPercentageOf (filtered : List BotApiPlayer) : ℚ :=
  ((playersInSyncWindowOf filtered : ℚ) / (filtered.length : ℚ)) * 100

/-- STEP 4: hours since the last save, `none` for the JS `Infinity` that
results when `metadata?.last_saved_at` is missing
(snapshot-logic.ts lines 118-121). -/
def hoursSinceLastSaveOf (metadata : Option SnapshotSaveMetadata) (now : ℚ) :
    Option ℚ :=
  (metadata.bind (fun m => m.last_saved_at)).map (fun t => (now - t) / 3600000)

/-- Comparison `x > c` on the number-or-`Infinity` model (`none` = `+∞`),
used for `cooldownPassed = hoursSinceLastSave > COOLDOWN_HOURS`. -/
def infGt (x : Option ℚ) (c : ℚ) : Bool :=
  match x with
  | none => true
  | some v => decide (c < v)

/-- `hasPendingSync = metadata?.pending_sync_data !== null`
(snapshot-logic.ts line 126).  When `metadata` is `null` the optional chain
yields `undefined`, which differs from `null`, so the flag is `true`. -/
def hasPendingSync (metadata : Option SnapshotSaveMetadata) : Bool :=
  match metadata with
  | none => true
  | some m => m.pending_sync_data.isSome

/-- `pendingAttemptCount = metadata?.pending_sync_attempt_count || 0`
(snapshot-logic.ts line 127). -/
def pendingAttemptCountOf (metadata : Option SnapshotSaveMetadata) : ℕ :=
  match metadata with
  | none => 0
  | some m => m.pending_sync_attempt_count

/-- `hoursSincePending` (snapshot-logic.ts lines 131-134); `0` when
`pending_sync_first_attempt` is absent. -/
def hoursSincePendingOf (metadata : Option SnapshotSaveMetadata) (now : ℚ) : ℚ :=
  match metadata.bind (fun m => m.pending_sync_first_attempt) with
  | some t => (now - t) / 3600000
  | none => 0

/-- A pending parcel is in effect for the early-return branches: the
`hasPendingSync` flag is set and the parcel is not stale
(snapshot-logic.ts lines 130-137). -/
def pendingActive (metadata : Option SnapshotSaveMetadata) (now : ℚ) : Bool :=
  hasPendingSync metadata && !(decide (hoursSincePendingOf metadata now > 2))

/-- The decision engine `shouldSaveSnapshot`
(`supabase/functions/_shared/snapshot-logic.ts` lines 36-253), with the
implicit clock `Date.now()` passed explicitly as `now` (ms).
Reason strings keep the source's stable text; the `toFixed` numeric
interpolations of the source are elided. -/
def shouldSaveSnapshot (players : List BotApiPlayer) (excludedIds : List String)
    (metadata : Option SnapshotSaveMetadata) (now : ℚ) : SnapshotDecision :=
  if (filteredPlayersOf players excludedIds).length = 0 then
    { shouldSave := false, syncPercentage := 0, playersInSyncWindow := 0,
      totalNonExcludedPlayers := 0, totalPlayersReceived := players.length,
      excludedPlayerCount :=
        (players.length : ℤ) - ((filteredPlayersOf players excludedIds).length : ℤ),
      lowestUpdatedAt := none,
      timeSinceLowestUpdateHours := 0, hoursSinceLastSave := none,
      reason := "No non-guest, non-excluded players in response",
      isPendingSync := false, pendingAttemptCount := 0, missingPlayers := [] }
  else if pendingActive metadata now &&
      decide (syncPercentageOf (filteredPlayersOf players excludedIds) ≥ 100) then
    { shouldSave := true,
      syncPercentage := syncPercentageOf (filteredPlayersOf players excludedIds),
      playersInSyncWindow := playersInSyncWindowOf (filteredPlayersOf players excludedIds),
      totalNonExcludedPlayers := (filteredPlayersOf players excludedIds).length,
      totalPlayersReceived := players.length,
      excludedPlayerCount :=
        (players.length : ℤ) - ((filteredPlayersOf players excludedIds).length : ℤ),
      lowestUpdatedAt := some (lowestUpdatedAtOf (filteredPlayersOf players excludedIds)),
      timeSinceLowestUpdateHours :=
        (now - lowestUpdatedAtOf (filteredPlayersOf players excludedIds)) / 3600000,
      hoursSinceLastSave := hoursSinceLastSaveOf metadata now,
      reason := "100% sync achieved after pending sync, saving immediately",
      isPendingSync := false,
      pendingAttemptCount := pendingAttemptCountOf metadata + 1,
      missingPlayers := [] }
  else if pendingActive metadata now &&
      decide (syncPercentageOf (filteredPlayersOf players excludedIds) ≥ PARTIAL_SYNC_THRESHOLD) &&
      decide (pendingAttemptCountOf metadata ≥ PARTIAL_SYNC_RETRY_ATTEMPTS - 1) then
    { shouldSave := true,
      syncPercentage := syncPercentageOf (filteredPlayersOf players excludedIds),
      playersInSyncWindow := playersInSyncWindowOf (filteredPlayersOf players excludedIds),
      totalNonExcludedPlayers := (filteredPlayersOf players excludedIds).length,
      totalPlayersReceived := players.length,
      excludedPlayerCount :=
        (players.length : ℤ) - ((filteredPlayersOf players excludedIds).length : ℤ),
      lowestUpdatedAt := some (lowestUpdatedAtOf (filteredPlayersOf players excludedIds)),
      timeSinceLowestUpdateHours :=
        (now - lowestUpdatedAtOf (filteredPlayersOf players excludedIds)) / 3600000,
      hoursSinceLastSave := hoursSinceLastSaveOf metadata now,
      reason := "Partial sync after retry attempts, saving with warning",
      isPendingSync := false,
      pendingAttemptCount := pendingAttemptCountOf metadata + 1,
      missingPlayers := missingPlayersOf (filteredPlayersOf players excludedIds) }
  else if decide (syncPercentageOf (filteredPlayersOf players excludedIds) ≥ 100) &&
      decide ((now - lowestUpdatedAtOf (filteredPlayersOf players excludedIds)) / 3600000
        < SYNC_WINDOW_HOURS) &&
      infGt (hoursSinceLastSaveOf metadata now) COOLDOWN_HOURS then
    { shouldSave := true,
      syncPercentage := syncPercentageOf (filteredPlayersOf players excludedIds),
      playersInSyncWindow := playersInSyncWindowOf (filteredPlayersOf players excludedIds),
      totalNonExcludedPlayers := (filteredPlayersOf players excludedIds).length,
      totalPlayersReceived := players.length,
      excludedPlayerCount :=
        (players.length : ℤ) - ((filteredPlayersOf players excludedIds).length : ℤ),
      lowestUpdatedAt := some (lowestUpdatedAtOf (filteredPlayersOf players excludedIds)),
      timeSinceLowestUpdateHours :=
        (now - lowestUpdatedAtOf (filteredPlayersOf players excludedIds)) / 3600000,
      hoursSinceLastSave := hoursSinceLastSaveOf metadata now,
      reason := "All conditions met: 100% sync, recent update, cooldown passed",
      isPendingSync := false, pendingAttemptCount := 0, missingPlayers := [] }
  else if decide (syncPercentageOf (filteredPlayersOf players excludedIds)
        ≥ PARTIAL_SYNC_THRESHOLD) &&
      decide ((now - lowestUpdatedAtOf (filteredPlayersOf players excludedIds)) / 3600000
        < SYNC_WINDOW_HOURS) &&
      infGt (hoursSinceLastSaveOf metadata now) COOLDOWN_HOURS &&
      !hasPendingSync metadata then
    { shouldSave := false,
      syncPercentage := syncPercentageOf (filteredPlayersOf players excludedIds),
      playersInSyncWindow := playersInSyncWindowOf (filteredPlayersOf players excludedIds),
      totalNonExcludedPlayers := (filteredPlayersOf players excludedIds).length,
      totalPlayersReceived := players.length,
      excludedPlayerCount :=
        (players.length : ℤ) - ((filteredPlayersOf players excludedIds).length : ℤ),
      lowestUpdatedAt := some (lowestUpdatedAtOf (filteredPlayersOf players excludedIds)),
      timeSinceLowestUpdateHours :=
        (now - lowestUpdatedAtOf (filteredPlayersOf players excludedIds)) / 3600000,
      hoursSinceLastSave := hoursSinceLastSaveOf metadata now,
      reason := "Partial sync detected, storing for retry in 15 minutes",
      isPendingSync := true, pendingAttemptCount := 1,
      missingPlayers := missingPlayersOf (filteredPlayersOf players excludedIds) }
  else
    { shouldSave := false,
      syncPercentage := syncPercentageOf (filteredPlayersOf players excludedIds),
      playersInSyncWindow := playersInSyncWindowOf (filteredPlayersOf players excludedIds),
      totalNonExcludedPlayers := (filteredPlayersOf players excludedIds).length,
      totalPlayersReceived := players.length,
      excludedPlayerCount :=
        (players.length : ℤ) - ((filteredPlayersOf players excludedIds).length : ℤ),
      lowestUpdatedAt := some (lowestUpdatedAtOf (filteredPlayersOf players excludedIds)),
      timeSinceLowestUpdateHours :=
        (now - lowestUpdatedAtOf (filteredPlayersOf players excludedIds)) / 3600000,
      hoursSinceLastSave := hoursSinceLastSaveOf metadata now,
      reason :=
        if !(decide ((now - lowestUpdatedAtOf (filteredPlayersOf players excludedIds)) / 3600000
            < SYNC_WINDOW_HOURS)) then "Update too old"
        else if !(infGt (hoursSinceLastSaveOf metadata now) COOLDOWN_HOURS) then
          "Cooldown not passed"
        else if !(decide (syncPercentageOf (filteredPlayersOf players excludedIds)
            ≥ PARTIAL_SYNC_THRESHOLD)) then "Insufficient sync"
        else "Unknown condition preventing save",
      isPendingSync := false,
      pendingAttemptCount := pendingAttemptCountOf metadata,
      missingPlayers := missingPlayersOf (filteredPlayersOf players excludedIds) }

/-- `shouldSendWeekNoUpdateAlert`
(`supabase/functions/_shared/snapshot-logic.ts` lines 261-288), with the
implicit `Date.now()` passed as `now`. -/
def shouldSendWeekNoUpdateAlert (metadata : Option SnapshotSaveMetadata)
    (now : ℚ) : Bool :=
  match metadata with
  | none => false
  | some m =>
    match m.last_saved_at with
    | none => false
    | some lastSaved =>
      if (now - lastSaved) / 3600000 < 24 * 7 + 1 then false
      else
        match m.last_email_sent_at with
        | some lastEmailSent =>
          if m.last_email_type = some "week_no_update" then
            decide ((now - lastEmailSent) / 3600000 > 2)
          else true
        | none => true

/-- `createPendingSyncData` (snapshot-logic.ts lines 293-308); the implicit
`new Date()` timestamp is passed as `now`. -/
def createPendingSyncData (players : List BotApiPlayer)
    (decision : SnapshotDecision) (now : ℚ) : PendingSyncData :=
  { players := players, timestamp := now,
    syncPercentage := decision.syncPercentage,
    attemptCount := decision.pendingAttemptCount,
    missingPlayers := decision.missingPlayers.map (fun p =>
      { discord_id := p.discord_id, ign := p.ign, updatedAt := p.updatedAt }) }

/-- Leaderboard cache row (`LeaderboardPlayer` in `get-leaderboard` and
`get-player-current-stats`; `LeaderboardCacheEntry` in `_shared/types.ts` —
the field sets coincide). -/
structure LeaderboardPlayer where
  discord_id : String
  ign : String
  display_name : Option String
  discord_name : String
  eb : ℚ
  se : ℚ
  pe : ℚ
  te : Option ℚ
  num_prestiges : Option ℕ
  farmer_role : Option String
  grade : String
  is_guest : Bool
  active : Bool
deriving Repr, DecidableEq

/-- `filterByAccessLevel` of the `get-leaderboard` edge function
(list version): non-admins get `num_prestiges` nulled on every element. -/
def filterByAccessLevel (players : List LeaderboardPlayer)
    (accessLevel : String) : List LeaderboardPlayer :=
  if accessLevel = "admin" then players
  else players.map (fun p => { p with num_prestiges := none })

/-- `filterByAccessLevel` of the `get-player-current-stats` edge function
(single-row version, lines 142-157). -/
def filterByAccessLevelSingle (player : Option LeaderboardPlayer)
    (accessLevel : String) : Option LeaderboardPlayer :=
  match player with
  | none => none
  | some p =>
    if accessLevel = "admin" then some p
    else some { p with num_prestiges := none }

/-- Verified JWT payload (interface `JWTPayload` in both read endpoints).
`exp` is `Option ℚ` because the handlers guard on its JS truthiness:
an absent claim is `none`, and `some 0` is falsy as well. -/
structure JWTPayload where
  sub : String
  discord_id : String
  access_level : String
  exp : Option ℚ
deriving Repr, DecidableEq

/-- The expiration test `jwtPayload.exp && jwtPayload.exp < Date.now() / 1000`
(get-player-current-stats line 201; get-leaderboard line 309).  A missing or
zero `exp` claim is falsy, so the conjunction short-circuits to `false`. -/
def jwtExpired (exp : Option ℚ) (now : ℚ) : Bool :=
  match exp with
  | none => false
  | some v => decide (v ≠ 0) && decide (v < now / 1000)

/-- `accessLevel = jwtPayload.access_level || 'user'` (both read endpoints);
the empty string is the only falsy string. -/
def effectiveAccessLevel (access_level : String) : String :=
  if access_level = "" then "user" else access_level

/-- Outcome of the authentication prologue shared by the two read
endpoints: 401 on missing/invalid signature, 401 on expiration, otherwise a
principal (discord id and effective access level). -/
inductive AuthGateResult where
  | unauthorizedInvalid
  | unauthorizedExpired
  | ok (discord_id : String) (accessLevel : String)
deriving Repr, DecidableEq

/-- Authentication prologue of `get-leaderboard`
(`serve`, lines 294-320 of the handler): `jwtPayload` is the result of
signature verification (`none` when verification failed). -/
def getLeaderboardAuthGate (jwtPayload : Option JWTPayload) (now : ℚ) :
    AuthGateResult :=
  match jwtPayload with
  | none => .unauthorizedInvalid
  | some p =>
    if jwtExpired p.exp now then .unauthorizedExpired
    else .ok p.discord_id (effectiveAccessLevel p.access_level)

/-- Authentication prologue of `get-player-current-stats`
(`serve`, lines 186-212): textually the same check as `get-leaderboard`. -/
def getPlayerCurrentStatsAuthGate (jwtPayload : Option JWTPayload) (now : ℚ) :
    AuthGateResult :=
  match jwtPayload with
  | none => .unauthorizedInvalid
  | some p =>
    if jwtExpired p.exp now then .unauthorizedExpired
    else .ok p.discord_id (effectiveAccessLevel p.access_level)

/-- Successful `get-leaderboard` response body restricted to the player list
(`serve`, lines 322-360): the players read from cache or upstream are masked
with `filterByAccessLevel`; `none` models the 401 paths.  The data source
(fresh fetch vs. cache) is abstracted into the `players` argument — both
paths feed the same masking. -/
def getLeaderboardResponsePlayers (jwtPayload : Option JWTPayload) (now : ℚ)
    (players : List LeaderboardPlayer) : Option (List LeaderboardPlayer) :=
  match getLeaderboardAuthGate jwtPayload now with
  | .ok _ lvl => some (filterByAccessLevel players lvl)
  | _ => none

/-- Response of `get-player-current-stats` (`serve`, lines 211-261):
after the auth gate, a `discord_id` query parameter is only honoured for
admins (403 otherwise); the row found in the cache (modelled by
`cacheLookup`) is masked with the single-row filter. -/
inductive GpcsResponse where
  | unauthorizedInvalid
  | unauthorizedExpired
  | forbidden
  | ok (player : Option LeaderboardPlayer)
deriving Repr, DecidableEq

/-- `get-player-current-stats` handler outcome. -/
def getPlayerCurrentStats (jwtPayload : Option JWTPayload) (now : ℚ)
    (targetDiscordId : Option String)
    (cacheLookup : String → Option LeaderboardPlayer) : GpcsResponse :=
  match getPlayerCurrentStatsAuthGate jwtPayload now with
  | .unauthorizedInvalid => .unauthorizedInvalid
  | .unauthorizedExpired => .unauthorizedExpired
  | .ok discordId accessLevel =>
    match targetDiscordId with
    | some target =>
      if accessLevel ≠ "admin" then .forbidden
      else .ok (filterByAccessLevelSingle (cacheLookup target) accessLevel)
    | none => .ok (filterByAccessLevelSingle (cacheLookup discordId) accessLevel)

/-- One upstream HTTP exchange as seen by `fetchFromBotAPI`
(refresh-leaderboard-cron, lines 363-379): a status code and, for the body,
`none` when the JSON payload is not an array, otherwise the parsed list. -/
structure UpstreamResponse where
  status : ℕ
  body : Option (List BotApiPlayer)
deriving Repr, DecidableEq

/-- `response.ok`: status in the 2xx range. -/
def responseOk (status : ℕ) : Bool := decide (200 ≤ status) && decide (status ≤ 299)

/-- `fetchFromBotAPI` (refresh-leaderboard-cron, lines 363-379): throws on a
non-2xx status and on an empty or non-array payload. -/
def fetchFromBotAPI (r : UpstreamResponse) : Except String (List BotApiPlayer) :=
  if !responseOk r.status then .error "Bot API returned non-OK status"
  else
    match r.body with
    | none => .error "No player data returned from bot API"
    | some ps =>
      if ps.length = 0 then .error "No player data returned from bot API"
      else .ok ps

/-- `transformToLeaderboardCache` (refresh-leaderboard-cron, lines 400-416);
the `||` defaults of the source are the `Option` values themselves, and
`active !== undefined ? active : true` is `getD true`. -/
def transformToLeaderboardCache (p : BotApiPlayer) : LeaderboardPlayer :=
  { discord_id := p.ID, ign := p.IGN, display_name := p.displayName,
    discord_name := p.discordName, eb := p.EB, se := p.SE, pe := p.PE,
    te := p.TE, num_prestiges := p.numPrestiges, farmer_role := p.farmerRole,
    grade := p.grade, is_guest := p.isGuest, active := p.active.getD true }

/-- Database state visible to one cron tick: the leaderboard cache, its
freshness marker, and the singleton controller-state row (`none` when the
row does not exist). -/
structure DbState where
  leaderboard_cache : List LeaderboardPlayer
  cache_last_updated : Option ℚ
  snapshot_save_metadata : Option SnapshotSaveMetadata
deriving Repr, DecidableEq

/-- `updateSnapshotMetadata` (refresh-leaderboard-cron, lines 487-499): a SQL
`UPDATE ... WHERE id = 1`, which changes nothing when no row exists. -/
def updateSnapshotMetadataDb (db : DbState)
    (f : SnapshotSaveMetadata → SnapshotSaveMetadata) : DbState :=
  match db.snapshot_save_metadata with
  | none => db
  | some m => { db with snapshot_save_metadata := some (f m) }

/-- Step 8 of the cron tick (refresh-leaderboard-cron, lines 649-676):
when email is configured and `shouldSendWeekNoUpdateAlert` fires on the
metadata loaded at the start of the tick, a successful send records the
alert in the controller state. -/
def weekAlertStep (db : DbState) (metadata : Option SnapshotSaveMetadata)
    (emailConfigured emailSendSucceeds : Bool) (now : ℚ) : DbState :=
  if emailConfigured && shouldSendWeekNoUpdateAlert metadata now &&
      emailSendSucceeds then
    updateSnapshotMetadataDb db (fun m =>
      { m with last_email_sent_at := some now,
               last_email_type := some "week_no_update" })
  else db

/-- Body of the cron tick response (refresh-leaderboard-cron,
lines 679-698), restricted to the scalar fields. -/
structure CronResponse where
  success : Bool
  playerCount : ℕ
  excludedCount : ℕ
  shouldSave : Bool
  syncPercentage : ℚ
  reason : String
  isPendingSync : Bool
  snapshotSaved : Bool
deriving Repr, DecidableEq

/-- One tick of `refresh-leaderboard-cron` (`serve`, lines 527-723) as a
state transition.  I/O collaborators are injected: the upstream exchange,
the exclusion list, whether the internal `update-player-data` call and the
alert email succeed.  An exception anywhere surfaces as `.error` (the 500
catch-all) and leaves the state as it stood at the throw point; the bad-fetch
throw happens before any database write. -/
def cronTick (upstream : UpstreamResponse) (excludedIds : List String)
    (updateCallSucceeds emailConfigured emailSendSucceeds : Bool)
    (db : DbState) (now : ℚ) : Except String CronResponse × DbState :=
  match fetchFromBotAPI upstream with
  | .error e => (.error e, db)
  | .ok players =>
    let db1 : DbState :=
      { db with leaderboard_cache := players.map transformToLeaderboardCache,
                cache_last_updated := some now }
    let metadata := db1.snapshot_save_metadata
    let decision := shouldSaveSnapshot players excludedIds metadata now
    let db2 := updateSnapshotMetadataDb db1 (fun m =>
      { m with last_decision_at := some now,
               last_decision_result := some decision })
    let response : CronResponse :=
      { success := true, playerCount := players.length,
        excludedCount := excludedIds.length, shouldSave := decision.shouldSave,
        syncPercentage := decision.syncPercentage, reason := decision.reason,
        isPendingSync := decision.isPendingSync,
        snapshotSaved := decision.shouldSave }
    if decision.shouldSave then
      if !updateCallSucceeds then (.error "update-player-data failed", db2)
      else
        let db3 := updateSnapshotMetadataDb db2 (fun m =>
          { m with last_saved_at := some now, pending_sync_data := none,
                   pending_sync_first_attempt := none,
                   pending_sync_attempt_count := 0,
                   pending_sync_metadata := none })
        (.ok response, weekAlertStep db3 metadata emailConfigured emailSendSucceeds now)
    else if decision.isPendingSync then
      let db3 := updateSnapshotMetadataDb db2 (fun m =>
        { m with
            pending_sync_data := some (createPendingSyncData players decision now),
            pending_sync_first_attempt :=
              some (((metadata.bind (fun x => x.pending_sync_first_attempt))).getD now),
            pending_sync_attempt_count := decision.pendingAttemptCount,
            pending_sync_metadata :=
              some { syncPercentage := decision.syncPercentage,
                     missingPlayers := decision.missingPlayers } })
      (.ok response, weekAlertStep db3 metadata emailConfigured emailSendSucceeds now)
    else
      (.ok response, weekAlertStep db2 metadata emailConfigured emailSendSucceeds now)

/-- Controller-state row with only `last_saved_at` set, used to instantiate
alert theorems on concrete inputs. -/
def mdWeekAlert : SnapshotSaveMetadata :=
  { last_saved_at := some 0, last_decision_at := none, last_decision_result := none,
    last_email_sent_at := none, last_email_type := none, pending_sync_data := none,
    pending_sync_first_attempt := none, pending_sync_attempt_count := 0,
    pending_sync_metadata := none }

/-- C6: `shouldSendWeekNoUpdateAlert` returns `true` only if at least
`24·7 + 1 = 169` hours have elapsed since the last save and, when a prior
`week_no_update` email is recorded with a send timestamp, strictly more than
2 hours have elapsed since that email. -/
theorem weekNoUpdateAlert_only_if (md : Option SnapshotSaveMetadata) (now : ℚ)
    (h : shouldSendWeekNoUpdateAlert md now = true) :
    ∃ m t, md = some m ∧ m.last_saved_at = some t ∧
      24 * 7 + 1 ≤ (now - t) / 3600000 ∧
      (∀ e, m.last_email_sent_at = some e →
        m.last_email_type = some "week_no_update" → 2 < (now - e) / 3600000) := by
  unfold shouldSendWeekNoUpdateAlert at h
  split at h
  · exact absurd h (by simp)
  · next m =>
    split at h
    · exact absurd h (by simp)
    · next t hs =>
      split at h
      · exact absurd h (by simp)
      · next hrec =>
        refine ⟨m, t, rfl, hs, le_of_not_lt hrec, ?_⟩
        intro e he hty
        rw [he] at h
        rw [hty] at h
        simp only [if_pos rfl] at h
        exact of_decide_eq_true h

/-- Witness for C6 at a concrete input: the alert fires 169 hours after a
save with no prior email, and the necessary conditions follow. -/
theorem weekNoUpdateAlert_only_if_witness :
    shouldSendWeekNoUpdateAlert (some mdWeekAlert) 608400000 = true ∧
    ∃ m t, (some mdWeekAlert : Option SnapshotSaveMetadata) = some m ∧
      m.last_saved_at = some t ∧
      24 * 7 + 1 ≤ ((608400000 : ℚ) - t) / 3600000 ∧
      (∀ e, m.last_email_sent_at = some e →
        m.last_email_type = some "week_no_update" →
        2 < ((608400000 : ℚ) - e) / 3600000) :=
  ⟨by norm_num [shouldSendWeekNoUpdateAlert, mdWeekAlert],
   weekNoUpdateAlert_only_if (some mdWeekAlert) 608400000
     (by norm_num [shouldSendWeekNoUpdateAlert, mdWeekAlert])⟩

/-- C9: no `week_no_update` alert is ever emitted before the first
successful snapshot save — the alert function returns `false` whenever the
controller-state row is absent or its `last_saved_at` is null. -/
theorem weekNoUpdateAlert_false_before_first_save
    (md : Option SnapshotSaveMetadata) (now : ℚ)
    (h : md = none ∨ ∃ m, md = some m ∧ m.last_saved_at = none) :
    shouldSendWeekNoUpdateAlert md now = false := by
  rcases h with h | ⟨m, rfl, hm⟩
  · subst h; rfl
  · simp [shouldSendWeekNoUpdateAlert, hm]

/-- Witness for C9 at the concrete input `metadata = null`. -/
theorem weekNoUpdateAlert_false_before_first_save_witness :
    shouldSendWeekNoUpdateAlert none 608400000 = false :=
  weekNoUpdateAlert_false_before_first_save none 608400000 (Or.inl rfl)

/-- The expiration test is positive exactly for a present, non-zero `exp`
claim smaller than `now / 1000`. -/
theorem jwtExpired_iff (exp : Option ℚ) (now : ℚ) :
    jwtExpired exp now = true ↔ ∃ v, exp = some v ∧ v ≠ 0 ∧ v < now / 1000 := by
  cases exp with
  | none => simp [jwtExpired]
  | some v => simp [jwtExpired]

/-- C10: on both read endpoints a signature-valid token is rejected as
expired exactly when its `exp` claim is present, non-zero, and smaller than
`now` (in seconds); a token without an `exp` claim, or with `exp = 0`, is
accepted at every `now` and yields the principal unchanged. -/
theorem readEndpoints_expiration (p : JWTPayload) (now : ℚ) :
    (getLeaderboardAuthGate (some p) now = AuthGateResult.unauthorizedExpired ↔
      ∃ v, p.exp = some v ∧ v ≠ 0 ∧ v < now / 1000) ∧
    (getPlayerCurrentStatsAuthGate (some p) now = AuthGateResult.unauthorizedExpired ↔
      ∃ v, p.exp = some v ∧ v ≠ 0 ∧ v < now / 1000) ∧
    ((p.exp = none ∨ p.exp = some 0) →
      getLeaderboardAuthGate (some p) now =
        AuthGateResult.ok p.discord_id (effectiveAccessLevel p.access_level) ∧
      getPlayerCurrentStatsAuthGate (some p) now =
        AuthGateResult.ok p.discord_id (effectiveAccessLevel p.access_level)) := by
  refine ⟨?_, ?_, ?_⟩
  · rw [← jwtExpired_iff]
    cases hb : jwtExpired p.exp now with
    | true => simp [getLeaderboardAuthGate, hb]
    | false => simp [getLeaderboardAuthGate, hb]
  · rw [← jwtExpired_iff]
    cases hb : jwtExpired p.exp now with
    | true => simp [getPlayerCurrentStatsAuthGate, hb]
    | false => simp [getPlayerCurrentStatsAuthGate, hb]
  · intro h
    have hb : jwtExpired p.exp now = false := by
      rcases h with h | h <;> simp [jwtExpired, h]
    exact ⟨by simp [getLeaderboardAuthGate, hb], by simp [getPlayerCurrentStatsAuthGate, hb]⟩

/-- Signature-valid payload with no `exp` claim, for concrete instantiation. -/
def pNoExp : JWTPayload :=
  { sub := "42", discord_id := "42", access_level := "user", exp := none }

/-- Witness for C10: the no-`exp` token is accepted by both endpoints. -/
theorem readEndpoints_expiration_witness :
    getLeaderboardAuthGate (some pNoExp) 999999 =
      AuthGateResult.ok pNoExp.discord_id (effectiveAccessLevel pNoExp.access_level) ∧
    getPlayerCurrentStatsAuthGate (some pNoExp) 999999 =
      AuthGateResult.ok pNoExp.discord_id (effectiveAccessLevel pNoExp.access_level) :=
  (readEndpoints_expiration pNoExp 999999).2.2 (Or.inl rfl)

/-- The effective access level of a non-admin token is never `"admin"`. -/
theorem effectiveAccessLevel_ne_admin (al : String) (h : al ≠ "admin") :
    effectiveAccessLevel al ≠ "admin" := by
  unfold effectiveAccessLevel
  split
  · decide
  · exact h

/-- C7: on both `get-leaderboard` and `get-player-current-stats`, a verified
session whose `access_level` is not `"admin"` only ever receives player
objects with `num_prestiges = null`. -/
theorem nonAdmin_numPrestiges_null (payload : JWTPayload) (now : ℚ)
    (players : List LeaderboardPlayer) (target : Option String)
    (cacheLookup : String → Option LeaderboardPlayer)
    (hna : payload.access_level ≠ "admin") :
    (∀ out, getLeaderboardResponsePlayers (some payload) now players = some out →
      ∀ p ∈ out, p.num_prestiges = none) ∧
    (∀ q, getPlayerCurrentStats (some payload) now target cacheLookup =
        GpcsResponse.ok (some q) → q.num_prestiges = none) := by
  have heff := effectiveAccessLevel_ne_admin payload.access_level hna
  constructor
  · intro out hout p hp
    cases hb : jwtExpired payload.exp now with
    | true => simp [getLeaderboardResponsePlayers, getLeaderboardAuthGate, hb] at hout
    | false =>
      simp only [getLeaderboardResponsePlayers, getLeaderboardAuthGate, hb,
        Bool.false_eq_true, if_false, Option.some.injEq] at hout
      subst hout
      rw [show filterByAccessLevel players (effectiveAccessLevel payload.access_level) =
          players.map (fun r => { r with num_prestiges := none }) by
        unfold filterByAccessLevel; rw [if_neg heff]] at hp
      obtain ⟨x, _, rfl⟩ := List.mem_map.mp hp
      rfl
  · intro q hq
    cases hb : jwtExpired payload.exp now with
    | true => simp [getPlayerCurrentStats, getPlayerCurrentStatsAuthGate, hb] at hq
    | false =>
      simp only [getPlayerCurrentStats, getPlayerCurrentStatsAuthGate, hb,
        Bool.false_eq_true, if_false] at hq
      cases target with
      | some t => simp [heff] at hq
      | none =>
        cases hc : cacheLookup payload.discord_id with
        | none => rw [hc] at hq; simp [filterByAccessLevelSingle] at hq
        | some r =>
          rw [hc] at hq
          simp only [filterByAccessLevelSingle] at hq
          rw [if_neg heff] at hq
          have hqq : ({ r with num_prestiges := none } : LeaderboardPlayer) = q := by
            have h2 := hq
            injection h2 with h3
            injection h3
          rw [← hqq]

/-- Cache row with a non-null `num_prestiges`, for concrete instantiation. -/
def lpSample : LeaderboardPlayer :=
  { discord_id := "7", ign := "x", display_name := none, discord_name := "x",
    eb := 1, se := 1, pe := 1, te := none, num_prestiges := some 5,
    farmer_role := none, grade := "AA", is_guest := false, active := true }

/-- Witness for C7: a non-admin request over a cache row carrying
`num_prestiges = 5` yields the masked row. -/
theorem nonAdmin_numPrestiges_null_witness :
    ({ lpSample with num_prestiges := none } : LeaderboardPlayer).num_prestiges = none :=
  (nonAdmin_numPrestiges_null pNoExp 0 [lpSample] none (fun _ => none)
      (by decide)).1
    [{ lpSample with num_prestiges := none }] rfl
    { lpSample with num_prestiges := none } (by simp)

/-- Baseline database state for concrete cron-tick instantiation. -/
def dbSample : DbState :=
  { leaderboard_cache := [lpSample], cache_last_updated := some 0,
    snapshot_save_metadata := some mdWeekAlert }

/-- C8: when the upstream fetch yields a non-2xx status, a non-array
payload, or an empty array, the cron tick returns an error response and the
database state — leaderboard cache, freshness marker, and
`snapshot_save_metadata` — is unchanged. -/
theorem cronTick_abort_on_bad_fetch (upstream : UpstreamResponse)
    (excludedIds : List String) (u e s : Bool) (db : DbState) (now : ℚ)
    (h : responseOk upstream.status = false ∨ upstream.body = none ∨
      upstream.body = some []) :
    (cronTick upstream excludedIds u e s db now).2 = db ∧
    ∃ msg, (cronTick upstream excludedIds u e s db now).1 = Except.error msg := by
  have hf : ∃ msg, fetchFromBotAPI upstream = Except.error msg := by
    unfold fetchFromBotAPI
    rcases h with h | h | h
    · rw [h]; exact ⟨_, rfl⟩
    · cases hr : responseOk upstream.status
      · exact ⟨_, rfl⟩
      · rw [h]; exact ⟨_, rfl⟩
    · cases hr : responseOk upstream.status
      · exact ⟨_, rfl⟩
      · rw [h]; exact ⟨_, rfl⟩
  obtain ⟨msg, hmsg⟩ := hf
  unfold cronTick
  rw [hmsg]
  exact ⟨rfl, msg, rfl⟩

/-- Witness for C8 at a concrete input: an upstream 500 leaves the state
untouched and surfaces an error. -/
theorem cronTick_abort_on_bad_fetch_witness :
    (cronTick ⟨500, none⟩ [] true true true dbSample 0).2 = dbSample ∧
    ∃ msg, (cronTick ⟨500, none⟩ [] true true true dbSample 0).1 =
      Except.error msg :=
  cronTick_abort_on_bad_fetch ⟨500, none⟩ [] true true true dbSample 0
    (Or.inl (by decide))

/-- All branches of the decision engine propagate the same synchronization
statistics into the returned record. -/
theorem shouldSaveSnapshot_stats (players : List BotApiPlayer)
    (excludedIds : List String) (metadata : Option SnapshotSaveMetadata)
    (now : ℚ) :
    (shouldSaveSnapshot players excludedIds metadata now).totalPlayersReceived =
      players.length ∧
    (shouldSaveSnapshot players excludedIds metadata now).totalNonExcludedPlayers =
      (filteredPlayersOf players excludedIds).length ∧
    (shouldSaveSnapshot players excludedIds metadata now).excludedPlayerCount =
      (players.length : ℤ) - ((filteredPlayersOf players excludedIds).length : ℤ) ∧
    ((filteredPlayersOf players excludedIds).length ≠ 0 →
      (shouldSaveSnapshot players excludedIds metadata now).playersInSyncWindow =
        playersInSyncWindowOf (filteredPlayersOf players excludedIds) ∧
      (shouldSaveSnapshot players excludedIds metadata now).syncPercentage =
        syncPercentageOf (filteredPlayersOf players excludedIds) ∧
      (shouldSaveSnapshot players excludedIds metadata now).timeSinceLowestUpdateHours =
        (now - lowestUpdatedAtOf (filteredPlayersOf players excludedIds)) / 3600000 ∧
      (shouldSaveSnapshot players excludedIds metadata now).hoursSinceLastSave =
        hoursSinceLastSaveOf metadata now) ∧
    ((filteredPlayersOf players excludedIds).length = 0 →
      (shouldSaveSnapshot players excludedIds metadata now).playersInSyncWindow = 0 ∧
      (shouldSaveSnapshot players excludedIds metadata now).shouldSave = false) := by
  unfold shouldSaveSnapshot
  split_ifs with h1 h2 h3 h4 h5 <;> simp [h1]

/-- The sync-window count equals the count of filtered players whose
`updatedAt` lies strictly below the window minimum plus one hour. -/
theorem playersInSyncWindowOf_spec (l : List BotApiPlayer) :
    playersInSyncWindowOf l =
      (l.filter (fun p =>
        decide (p.updatedAt < lowestUpdatedAtOf l + ONE_HOUR_MS))).length := by
  unfold playersInSyncWindowOf
  congr 1
  apply List.filter_congr
  intro x _
  unfold inSyncWindow
  exact decide_eq_decide.mpr sub_lt_iff_lt_add'

/-- C2: the decision's synchronization statistics are internally consistent:
the window count is the number of filtered players strictly within one hour
of the oldest update, `syncPercentage = 100·w/n` when `n > 0`, the counter
inequalities hold, the excluded count is the difference of totals, and a
tick with no countable players never saves. -/
theorem decision_sync_statistics (players : List BotApiPlayer)
    (excludedIds : List String) (metadata : Option SnapshotSaveMetadata)
    (now : ℚ) :
    (0 < (shouldSaveSnapshot players excludedIds metadata now).totalNonExcludedPlayers →
      (shouldSaveSnapshot players excludedIds metadata now).playersInSyncWindow =
        ((filteredPlayersOf players excludedIds).filter (fun p =>
          decide (p.updatedAt <
            lowestUpdatedAtOf (filteredPlayersOf players excludedIds) + ONE_HOUR_MS))).length ∧
      (shouldSaveSnapshot players excludedIds metadata now).syncPercentage =
        100 * ((shouldSaveSnapshot players excludedIds metadata now).playersInSyncWindow : ℚ) /
          ((shouldSaveSnapshot players excludedIds metadata now).totalNonExcludedPlayers : ℚ)) ∧
    (shouldSaveSnapshot players excludedIds metadata now).playersInSyncWindow ≤
      (shouldSaveSnapshot players excludedIds metadata now).totalNonExcludedPlayers ∧
    (shouldSaveSnapshot players excludedIds metadata now).totalNonExcludedPlayers ≤
      (shouldSaveSnapshot players excludedIds metadata now).totalPlayersReceived ∧
    (shouldSaveSnapshot players excludedIds metadata now).excludedPlayerCount =
      ((shouldSaveSnapshot players excludedIds metadata now).totalPlayersReceived : ℤ) -
        ((shouldSaveSnapshot players excludedIds metadata now).totalNonExcludedPlayers : ℤ) ∧
    ((shouldSaveSnapshot players excludedIds metadata now).totalNonExcludedPlayers = 0 →
      (shouldSaveSnapshot players excludedIds metadata now).shouldSave = false) := by
  obtain ⟨ht, hn, he, hstat, hz⟩ :=
    shouldSaveSnapshot_stats players excludedIds metadata now
  refine ⟨?_, ?_, ?_, ?_, ?_⟩
  · intro hpos
    rw [hn] at hpos
    obtain ⟨hw, hs, -, -⟩ := hstat hpos.ne'
    constructor
    · rw [hw, playersInSyncWindowOf_spec]
    · rw [hs, hw, hn]
      unfold syncPercentageOf
      ring
  · by_cases h0 : (filteredPlayersOf players excludedIds).length = 0
    · rw [hn, (hz h0).1, h0]
    · obtain ⟨hw, -, -, -⟩ := hstat h0
      rw [hw, hn]
      exact List.length_filter_le _ _
  · rw [ht, hn]
    exact List.length_filter_le _ _
  · rw [he, ht, hn]
  · intro h0
    rw [hn] at h0
    exact (hz h0).2

/-- Non-guest player with `updatedAt = 0`, for concrete instantiation of the
decision-engine theorems. -/
def pSolo : BotApiPlayer :=
  { ID := "1", IGN := "solo", displayName := none, discordName := "solo",
    EB := 1, SE := 1, PE := 1, TE := none, numPrestiges := none,
    farmerRole := none, grade := "AAA", isGuest := false, active := none,
    updatedAt := 0 }

/-- Witness for C2 at two concrete inputs: the statistics equalities on a
one-player poll, and the no-save conclusion on an empty poll. -/
theorem decision_sync_statistics_witness :
    (shouldSaveSnapshot [pSolo] [] none 0).playersInSyncWindow =
      ((filteredPlayersOf [pSolo] []).filter (fun p =>
        decide (p.updatedAt < lowestUpdatedAtOf (filteredPlayersOf [pSolo] []) +
          ONE_HOUR_MS))).length ∧
    (shouldSaveSnapshot [] [] none 0).shouldSave = false :=
  ⟨((decision_sync_statistics [pSolo] [] none 0).1 (by
      rw [(shouldSaveSnapshot_stats [pSolo] [] none 0).2.1]
      norm_num [filteredPlayersOf, pSolo])).1,
   (decision_sync_statistics [] [] none 0).2.2.2.2 (by
      rw [(shouldSaveSnapshot_stats [] [] none 0).2.1]
      norm_num [filteredPlayersOf])⟩

/-- C5: with no controller-state row (`metadata = null`), the engine takes
the pending-parcel path — `metadata?.pending_sync_data` is `undefined`,
which differs from `null` — so any decision whose `syncPercentage` reaches
100 saves immediately with the pending-sync reason, for every `now`: the
recency check is never applied on this path. -/
theorem nullMetadata_fullSync_saves (players : List BotApiPlayer)
    (excludedIds : List String) (now : ℚ)
    (h100 : (shouldSaveSnapshot players excludedIds none now).syncPercentage = 100) :
    (shouldSaveSnapshot players excludedIds none now).shouldSave = true ∧
    (shouldSaveSnapshot players excludedIds none now).reason =
      "100% sync achieved after pending sync, saving immediately" := by
  have hpa : pendingActive (none : Option SnapshotSaveMetadata) now = true := by
    norm_num [pendingActive, hasPendingSync, hoursSincePendingOf]
  unfold shouldSaveSnapshot at h100 ⊢
  split_ifs at h100 ⊢ with h1 h2
  all_goals first
    | (exact ⟨rfl, rfl⟩)
    | (simp at h100; done)
    | (simp at h100; exact absurd (by simp [hpa, h100]) h2)

/-- A one-player poll is fully synchronized. -/
theorem pct_solo : syncPercentageOf (filteredPlayersOf [pSolo] []) = 100 := by
  norm_num [syncPercentageOf, playersInSyncWindowOf, lowestUpdatedAtOf,
    inSyncWindow, filteredPlayersOf, pSolo, List.min?, ONE_HOUR_MS]

/-- Witness for C5: a single player last updated ten hours ago (far outside
the recency window) is saved immediately when metadata is null. -/
theorem nullMetadata_fullSync_saves_witness :
    (shouldSaveSnapshot [pSolo] [] none 36000000).shouldSave = true ∧
    (shouldSaveSnapshot [pSolo] [] none 36000000).reason =
      "100% sync achieved after pending sync, saving immediately" :=
  nullMetadata_fullSync_saves [pSolo] [] 36000000 (by
    obtain ⟨-, -, -, hstat, -⟩ := shouldSaveSnapshot_stats [pSolo] [] none 36000000
    have hne : (filteredPlayersOf [pSolo] []).length ≠ 0 := by
      norm_num [filteredPlayersOf, pSolo]
    obtain ⟨-, hs, -, -⟩ := hstat hne
    rw [hs, pct_solo])

/-- C1 (amended): when no non-stale pending parcel is in effect — the
pending early-return branches are disabled — a decision whose oldest update
is not recent, or whose cooldown has not passed, or whose sync percentage is
below the partial threshold, never saves. -/
theorem noSave_without_preconditions (players : List BotApiPlayer)
    (excludedIds : List String) (metadata : Option SnapshotSaveMetadata)
    (now : ℚ) (hp : pendingActive metadata now = false)
    (h : SYNC_WINDOW_HOURS ≤
        (shouldSaveSnapshot players excludedIds metadata now).timeSinceLowestUpdateHours ∨
      infGt (shouldSaveSnapshot players excludedIds metadata now).hoursSinceLastSave
        COOLDOWN_HOURS = false ∨
      (shouldSaveSnapshot players excludedIds metadata now).syncPercentage <
        PARTIAL_SYNC_THRESHOLD) :
    (shouldSaveSnapshot players excludedIds metadata now).shouldSave = false := by
  unfold shouldSaveSnapshot at h ⊢
  split_ifs at h ⊢ with h1 h2 h3 h4 h5
  · rfl
  · exact absurd h2 (by simp [hp])
  · exact absurd h3 (by simp [hp])
  · simp only [Bool.and_eq_true, decide_eq_true_eq, ge_iff_le] at h4
    simp only [SnapshotDecision.timeSinceLowestUpdateHours,
      SnapshotDecision.hoursSinceLastSave, SnapshotDecision.syncPercentage] at h
    obtain ⟨⟨hs100, ht⟩, hcd⟩ := h4
    rcases h with h | h | h
    · linarith
    · simp [h] at hcd
    · have h99 : PARTIAL_SYNC_THRESHOLD ≤ (100 : ℚ) := by
        norm_num [PARTIAL_SYNC_THRESHOLD]
      linarith
  · rfl
  · rfl
  · rfl
  · rfl
  · rfl

/-- Counterexample to C1 as stated: with `metadata = null` (first use) and a
single player last updated ten hours ago, `updateIsRecent` is false — the
oldest update is 10 hours old, beyond the 65-minute window — yet the
decision saves, through the pending-parcel branch that skips the recency
and cooldown guards. -/
theorem noSave_guard_counterexample :
    SYNC_WINDOW_HOURS ≤
      (shouldSaveSnapshot [pSolo] [] none 36000000).timeSinceLowestUpdateHours ∧
    (shouldSaveSnapshot [pSolo] [] none 36000000).shouldSave = true := by
  have hc1 : ¬((filteredPlayersOf [pSolo] []).length = 0) := by
    norm_num [filteredPlayersOf, pSolo]
  have hc2 : (pendingActive (none : Option SnapshotSaveMetadata) 36000000 &&
      decide (syncPercentageOf (filteredPlayersOf [pSolo] []) ≥ 100)) = true := by
    norm_num [pendingActive, hasPendingSync, hoursSincePendingOf, pct_solo]
  constructor
  · obtain ⟨-, -, -, hstat, -⟩ := shouldSaveSnapshot_stats [pSolo] [] none 36000000
    obtain ⟨-, -, htime, -⟩ := hstat (by norm_num [filteredPlayersOf, pSolo])
    rw [htime]
    norm_num [lowestUpdatedAtOf, filteredPlayersOf, pSolo, List.min?,
      SYNC_WINDOW_HOURS]
  · unfold shouldSaveSnapshot
    rw [if_neg hc1, if_pos hc2]

/-- Controller-state row with no pending parcel and a save two hours in the
past, for concrete instantiation. -/
def mdCooldownOk : SnapshotSaveMetadata :=
  { last_saved_at := some (-7200000), last_decision_at := none,
    last_decision_result := none, last_email_sent_at := none,
    last_email_type := none, pending_sync_data := none,
    pending_sync_first_attempt := none, pending_sync_attempt_count := 0,
    pending_sync_metadata := none }

/-- Witness for the amended C1: with an empty poll (sync percentage 0) and
no pending parcel, the decision does not save. -/
theorem noSave_without_preconditions_witness :
    pendingActive (some mdCooldownOk) 0 = false ∧
    (shouldSaveSnapshot [] [] (some mdCooldownOk) 0).shouldSave = false := by
  have hpa : pendingActive (some mdCooldownOk) 0 = false := by
    norm_num [pendingActive, hasPendingSync, mdCooldownOk]
  refine ⟨hpa, noSave_without_preconditions [] [] (some mdCooldownOk) 0 hpa ?_⟩
  refine Or.inr (Or.inr ?_)
  obtain ⟨-, hn, -, -, -⟩ := shouldSaveSnapshot_stats [] [] (some mdCooldownOk) 0
  have h0 : (filteredPlayersOf [] []).length = 0 := by
    norm_num [filteredPlayersOf]
  obtain ⟨-, -, -, -, hz⟩ := shouldSaveSnapshot_stats [] [] (some mdCooldownOk) 0
  have : (shouldSaveSnapshot [] [] (some mdCooldownOk) 0).syncPercentage = 0 := by
    unfold shouldSaveSnapshot
    rw [if_pos h0]
  rw [this]
  norm_num [PARTIAL_SYNC_THRESHOLD]

/-- Minimum of `n+1` copies of `a` followed by one `b ≥ a`. -/
theorem minq_rep_app (n : ℕ) (a b : ℚ) (h : a ≤ b) :
    (List.replicate (n + 1) a ++ [b]).min? = some a := by
  induction n with
  | zero => simp [List.min?_cons, List.min?_nil, min_eq_left h]
  | succ k ih =>
    rw [List.replicate_succ, List.cons_append, List.min?_cons, ih]
    simp

/-- Straggler player: same shape as `pSolo` but updated 75 minutes later. -/
def pLag : BotApiPlayer := { pSolo with ID := "L", updatedAt := 4500000 }

/-- A 100-player poll with one straggler: 99 players at time 0 and one at
75 minutes — the partial-sync scenario. -/
def partialPlayers : List BotApiPlayer := List.replicate 99 pSolo ++ [pLag]

/-- None of the partial-sync players is a guest or excluded. -/
theorem filteredPartialPoll : filteredPlayersOf partialPlayers [] = partialPlayers := by
  apply List.filter_eq_self.mpr
  intro a ha
  simp only [partialPlayers, List.mem_append, List.mem_replicate,
    List.mem_singleton] at ha
  rcases ha with ⟨-, rfl⟩ | rfl <;> rfl

/-- The oldest update among the partial-sync players is time 0. -/
theorem lowPartialPoll : lowestUpdatedAtOf partialPlayers = 0 := by
  unfold lowestUpdatedAtOf
  have hmap : partialPlayers.map (fun p => p.updatedAt) =
      List.replicate 99 (0 : ℚ) ++ [4500000] := by
    simp [partialPlayers, pSolo, pLag]
  rw [hmap, minq_rep_app 98 0 4500000 (by norm_num)]
  rfl

/-- Exactly the 99 players at time 0 are inside the one-hour window. -/
theorem winPartialPoll : playersInSyncWindowOf partialPlayers = 99 := by
  unfold playersInSyncWindowOf
  rw [lowPartialPoll]
  have h1 : inSyncWindow 0 pSolo = true := by
    norm_num [inSyncWindow, pSolo, ONE_HOUR_MS]
  have h2 : inSyncWindow 0 pLag = false := by
    norm_num [inSyncWindow, pLag, pSolo, ONE_HOUR_MS]
  rw [show partialPlayers = List.replicate 99 pSolo ++ [pLag] from rfl,
    List.filter_append, List.filter_replicate, h1]
  simp [h2]

/-- The partial-sync poll counts 100 players. -/
theorem lenPartialPoll : partialPlayers.length = 100 := by
  simp [partialPlayers]

/-- The partial-sync poll sits at exactly 99%. -/
theorem pctPartialPoll : syncPercentageOf partialPlayers = 99 := by
  unfold syncPercentageOf
  rw [winPartialPoll, lenPartialPoll]
  norm_num

/-- C3: with no pending parcel, a sync percentage in `[99, 100)`, a recent
oldest update, and a passed cooldown, the engine parks the poll: it does not
save, flags `isPendingSync`, and sets the attempt count to 1. -/
theorem partialSync_first_detection (players : List BotApiPlayer)
    (excludedIds : List String) (m : SnapshotSaveMetadata) (now : ℚ)
    (hpd : m.pending_sync_data = none)
    (h99 : PARTIAL_SYNC_THRESHOLD ≤
      (shouldSaveSnapshot players excludedIds (some m) now).syncPercentage)
    (h100 : (shouldSaveSnapshot players excludedIds (some m) now).syncPercentage < 100)
    (hrec : (shouldSaveSnapshot players excludedIds (some m) now).timeSinceLowestUpdateHours <
      SYNC_WINDOW_HOURS)
    (hcd : infGt (shouldSaveSnapshot players excludedIds (some m) now).hoursSinceLastSave
      COOLDOWN_HOURS = true) :
    (shouldSaveSnapshot players excludedIds (some m) now).shouldSave = false ∧
    (shouldSaveSnapshot players excludedIds (some m) now).isPendingSync = true ∧
    (shouldSaveSnapshot players excludedIds (some m) now).pendingAttemptCount = 1 := by
  have hhp : hasPendingSync (some m) = false := by
    simp [hasPendingSync, hpd]
  have hpa : pendingActive (some m) now = false := by
    simp [pendingActive, hhp]
  have hne : ¬((filteredPlayersOf players excludedIds).length = 0) := by
    intro h0
    have hzero : (shouldSaveSnapshot players excludedIds (some m) now).syncPercentage = 0 := by
      unfold shouldSaveSnapshot
      rw [if_pos h0]
    rw [hzero, show PARTIAL_SYNC_THRESHOLD = (99 : ℚ) from rfl] at h99
    norm_num at h99
  obtain ⟨-, -, -, hstat, -⟩ :=
    shouldSaveSnapshot_stats players excludedIds (some m) now
  obtain ⟨-, hsEq, htEq, hhsEq⟩ := hstat hne
  rw [hsEq] at h99 h100
  rw [htEq] at hrec
  rw [hhsEq] at hcd
  have hn100 : ¬(syncPercentageOf (filteredPlayersOf players excludedIds) ≥ 100) :=
    not_le.mpr h100
  unfold shouldSaveSnapshot
  rw [if_neg hne, if_neg (by simp [hpa] : ¬((pendingActive (some m) now &&
    decide (syncPercentageOf (filteredPlayersOf players excludedIds) ≥ 100)) = true)),
    if_neg (by simp [hpa] : ¬((pendingActive (some m) now &&
      decide (syncPercentageOf (filteredPlayersOf players excludedIds) ≥
        PARTIAL_SYNC_THRESHOLD) &&
      decide (pendingAttemptCountOf (some m) ≥ PARTIAL_SYNC_RETRY_ATTEMPTS - 1)) = true)),
    if_neg (by simp [hn100] : ¬((decide (syncPercentageOf
        (filteredPlayersOf players excludedIds) ≥ 100) &&
      decide ((now - lowestUpdatedAtOf (filteredPlayersOf players excludedIds)) / 3600000 <
        SYNC_WINDOW_HOURS) &&
      infGt (hoursSinceLastSaveOf (some m) now) COOLDOWN_HOURS) = true)),
    if_pos (by simp [h99, hrec, hcd, hhp, ge_iff_le] : ((decide (syncPercentageOf
        (filteredPlayersOf players excludedIds) ≥ PARTIAL_SYNC_THRESHOLD) &&
      decide ((now - lowestUpdatedAtOf (filteredPlayersOf players excludedIds)) / 3600000 <
        SYNC_WINDOW_HOURS) &&
      infGt (hoursSinceLastSaveOf (some m) now) COOLDOWN_HOURS &&
      !hasPendingSync (some m)) = true))]
  exact ⟨rfl, rfl, rfl⟩

/-- Witness for C3: the 99%-synced 100-player poll, 40 minutes after the
oldest update, two hours after the last save, with no pending parcel. -/
theorem partialSync_first_detection_witness :
    (shouldSaveSnapshot partialPlayers [] (some mdCooldownOk) 2400000).shouldSave = false ∧
    (shouldSaveSnapshot partialPlayers [] (some mdCooldownOk) 2400000).isPendingSync = true ∧
    (shouldSaveSnapshot partialPlayers [] (some mdCooldownOk) 2400000).pendingAttemptCount = 1 := by
  have hne : ¬((filteredPlayersOf partialPlayers []).length = 0) := by
    rw [filteredPartialPoll, lenPartialPoll]
    norm_num
  obtain ⟨-, -, -, hstat, -⟩ :=
    shouldSaveSnapshot_stats partialPlayers [] (some mdCooldownOk) 2400000
  obtain ⟨-, hsEq, htEq, hhsEq⟩ := hstat hne
  apply partialSync_first_detection
  · rfl
  · rw [hsEq, filteredPartialPoll, pctPartialPoll]
    norm_num [PARTIAL_SYNC_THRESHOLD]
  · rw [hsEq, filteredPartialPoll, pctPartialPoll]
    norm_num
  · rw [htEq, filteredPartialPoll, lowPartialPoll]
    norm_num [SYNC_WINDOW_HOURS]
  · rw [hhsEq]
    norm_num [infGt, hoursSinceLastSaveOf, mdCooldownOk, COOLDOWN_HOURS]

/-- A stored pending parcel (contents irrelevant to the decision logic). -/
def pendingParcel : PendingSyncData :=
  { players := [], timestamp := 0, syncPercentage := 99, attemptCount := 1,
    missingPlayers := [] }

/-- Controller state holding a stale pending parcel: first attempt three
hours ago (past the 2-hour staleness bound), last save two hours ago. -/
def mdStalePending : SnapshotSaveMetadata :=
  { last_saved_at := some (-7200000), last_decision_at := none,
    last_decision_result := none, last_email_sent_at := none,
    last_email_type := none, pending_sync_data := some pendingParcel,
    pending_sync_first_attempt := some (-10800000),
    pending_sync_attempt_count := 1, pending_sync_metadata := none }

/-- The same controller state with every pending field cleared. -/
def mdClearedPending : SnapshotSaveMetadata :=
  { mdStalePending with
    pending_sync_data := none,
    pending_sync_first_attempt := none,
    pending_sync_attempt_count := 0,
    pending_sync_metadata := none }

/-- C4 evidence: a stale pending parcel is NOT treated like a cleared one.
On the 99%-synced poll the cleared state parks the poll for retry
(`isPendingSync = true`) while the stale-pending state reaches the final
fall-through — `hasPendingSync` is still `true` in the parking guard — and
returns a different decision. -/
theorem stalePending_differs_from_cleared :
    (shouldSaveSnapshot partialPlayers [] (some mdStalePending) 2400000).isPendingSync = false ∧
    (shouldSaveSnapshot partialPlayers [] (some mdClearedPending) 2400000).isPendingSync = true ∧
    shouldSaveSnapshot partialPlayers [] (some mdStalePending) 2400000 ≠
      shouldSaveSnapshot partialPlayers [] (some mdClearedPending) 2400000 := by
  have hne : ¬((filteredPlayersOf partialPlayers []).length = 0) := by
    rw [filteredPartialPoll, lenPartialPoll]
    norm_num
  have hs : syncPercentageOf (filteredPlayersOf partialPlayers []) = 99 := by
    rw [filteredPartialPoll, pctPartialPoll]
  have hn100 : ¬(syncPercentageOf (filteredPlayersOf partialPlayers []) ≥ 100) := by
    rw [hs]
    norm_num
  have hhp1 : hasPendingSync (some mdStalePending) = true := by
    simp [hasPendingSync, mdStalePending]
  have hpa1 : pendingActive (some mdStalePending) 2400000 = false := by
    norm_num [pendingActive, hasPendingSync, hoursSincePendingOf, mdStalePending]
  have hhp2 : hasPendingSync (some mdClearedPending) = false := by
    simp [hasPendingSync, mdClearedPending, mdStalePending]
  have hpa2 : pendingActive (some mdClearedPending) 2400000 = false := by
    simp [pendingActive, hhp2]
  have hrec : (2400000 - lowestUpdatedAtOf (filteredPlayersOf partialPlayers [])) /
      3600000 < SYNC_WINDOW_HOURS := by
    rw [filteredPartialPoll, lowPartialPoll]
    norm_num [SYNC_WINDOW_HOURS]
  have hcd : infGt (hoursSinceLastSaveOf (some mdClearedPending) 2400000)
      COOLDOWN_HOURS = true := by
    norm_num [infGt, hoursSinceLastSaveOf, mdClearedPending, mdStalePending,
      COOLDOWN_HOURS]
  have h99 : PARTIAL_SYNC_THRESHOLD ≤
      syncPercentageOf (filteredPlayersOf partialPlayers []) := by
    rw [hs]
    norm_num [PARTIAL_SYNC_THRESHOLD]
  have h1 : (shouldSaveSnapshot partialPlayers [] (some mdStalePending) 2400000).isPendingSync =
      false := by
    unfold shouldSaveSnapshot
    rw [if_neg hne,
      if_neg (by simp [hpa1] : ¬((pendingActive (some mdStalePending) 2400000 &&
        decide (syncPercentageOf (filteredPlayersOf partialPlayers []) ≥ 100)) = true)),
      if_neg (by simp [hpa1] : ¬((pendingActive (some mdStalePending) 2400000 &&
        decide (syncPercentageOf (filteredPlayersOf partialPlayers []) ≥
          PARTIAL_SYNC_THRESHOLD) &&
        decide (pendingAttemptCountOf (some mdStalePending) ≥
          PARTIAL_SYNC_RETRY_ATTEMPTS - 1)) = true)),
      if_neg (by simp [hn100] : ¬((decide (syncPercentageOf
          (filteredPlayersOf partialPlayers []) ≥ 100) &&
        decide ((2400000 - lowestUpdatedAtOf (filteredPlayersOf partialPlayers [])) /
          3600000 < SYNC_WINDOW_HOURS) &&
        infGt (hoursSinceLastSaveOf (some mdStalePending) 2400000)
          COOLDOWN_HOURS) = true)),
      if_neg (by simp [hhp1] : ¬((decide (syncPercentageOf
          (filteredPlayersOf partialPlayers []) ≥ PARTIAL_SYNC_THRESHOLD) &&
        decide ((2400000 - lowestUpdatedAtOf (filteredPlayersOf partialPlayers [])) /
          3600000 < SYNC_WINDOW_HOURS) &&
        infGt (hoursSinceLastSaveOf (some mdStalePending) 2400000) COOLDOWN_HOURS &&
        !hasPendingSync (some mdStalePending)) = true))]
  have h2 : (shouldSaveSnapshot partialPlayers [] (some mdClearedPending) 2400000).isPendingSync =
      true := by
    unfold shouldSaveSnapshot
    rw [if_neg hne,
      if_neg (by simp [hpa2] : ¬((pendingActive (some mdClearedPending) 2400000 &&
        decide (syncPercentageOf (filteredPlayersOf partialPlayers []) ≥ 100)) = true)),
      if_neg (by simp [hpa2] : ¬((pendingActive (some mdClearedPending) 2400000 &&
        decide (syncPercentageOf (filteredPlayersOf partialPlayers []) ≥
          PARTIAL_SYNC_THRESHOLD) &&
        decide (pendingAttemptCountOf (some mdClearedPending) ≥
          PARTIAL_SYNC_RETRY_ATTEMPTS - 1)) = true)),
      if_neg (by simp [hn100] : ¬((decide (syncPercentageOf
          (filteredPlayersOf partialPlayers []) ≥ 100) &&
        decide ((2400000 - lowestUpdatedAtOf (filteredPlayersOf partialPlayers [])) /
          3600000 < SYNC_WINDOW_HOURS) &&
        infGt (hoursSinceLastSaveOf (some mdClearedPending) 2400000)
          COOLDOWN_HOURS) = true)),
      if_pos (by simp [h99, hrec, hcd, hhp2, ge_iff_le] : ((decide (syncPercentageOf
          (filteredPlayersOf partialPlayers []) ≥ PARTIAL_SYNC_THRESHOLD) &&
        decide ((2400000 - lowestUpdatedAtOf (filteredPlayersOf partialPlayers [])) /
          3600000 < SYNC_WINDOW_HOURS) &&
        infGt (hoursSinceLastSaveOf (some mdClearedPending) 2400000) COOLDOWN_HOURS &&
        !hasPendingSync (some mdClearedPending)) = true))]
  refine ⟨h1, h2, ?_⟩
  intro heq
  have hproj := congrArg SnapshotDecision.isPendingSync heq
  rw [h1, h2] at hproj
  exact Bool.false_ne_true hproj
